import Mathlib

/-!
Verification of the HPC System Configuration Tool wizard core
(`ConfigurationStateService` and the step components), shallowly embedded
from the TypeScript source.  Machine integers follow ECMAScript semantics:
bitwise operations truncate to signed 32-bit, modelled on `Int` with
explicit reduction modulo 2^32.
-/

namespace HPC

/-- ECMAScript ToInt32: reduce an integer modulo 2^32 into [-2^31, 2^31). -/
def toInt32 (n : Int) : Int :=
  if n % 4294967296 < 2147483648 then n % 4294967296
  else n % 4294967296 - 4294967296

/-- JS `h << 5`: both operand conversion and the 32-bit result truncation. -/
def jsShl5 (h : Int) : Int := toInt32 (toInt32 h * 32)

/-- One iteration of the loop in `calculateConfigHash`:
`hash = ((hash << 5) - hash) + char; hash = hash & hash;`
(`x & x` is ToInt32 of `x`). -/
def hashStep (h : Int) (c : Nat) : Int := toInt32 (jsShl5 h - h + (c : Int))

/-- The rolling hash over the character codes of a string, from `hash = 0`. -/
def hashString (s : String) : Int :=
  s.data.foldl (fun h ch => hashStep h ch.toNat) 0

/-- Decimal digit list of a natural number, most significant first; the
first argument is structural fuel (`fuel = n + 1` always suffices for the
leading digits we render). Models JS `Number.prototype.toString()`. -/
def natDecAux : Nat → Nat → List Char
  | 0, _ => []
  | fuel + 1, n =>
    if n < 10 then [Nat.digitChar n]
    else natDecAux fuel (n / 10) ++ [Nat.digitChar (n % 10)]

/-- Decimal rendering of an integer, modelling JS `Number.prototype.toString()`
on integral values. -/
def intToDecimal (i : Int) : String :=
  if i < 0 then ⟨'-' :: natDecAux (i.natAbs + 1) i.natAbs⟩
  else ⟨natDecAux (i.natAbs + 1) i.natAbs⟩

/-- A selected catalog entry; every option object the wizard stores
(`SystemType`, `DeploymentType`, `PowerConfiguration`, `Region`,
`StorageNetworkProtocol`, `StorageVendor`, `SupportOption`) carries an
`id` and a `name`, which is all the state service reads from them. -/
structure NamedOption where
  id : String
  name : String
deriving DecidableEq

/-- `Step1Data` of configuration-state.service.ts. -/
structure Step1Data where
  systemType : NamedOption
  deploymentType : NamedOption
  selectedNodes : Int
  nodesPerRack : Int
  totalRacks : Int
deriving DecidableEq

/-- `Step2Data` of configuration-state.service.ts. -/
structure Step2Data where
  powerConfiguration : NamedOption
  region : NamedOption
  calculatedEfficiency : Rat
  estimatedPowerConsumption : Rat
deriving DecidableEq

/-- `Step3Data` of configuration-state.service.ts. -/
structure Step3Data where
  storageProtocol : NamedOption
  storageVendor : NamedOption
  supportOption : NamedOption
deriving DecidableEq

/-- `ConfigurationData` of configuration-state.service.ts; TS optional
fields become `Option`. -/
structure ConfigurationData where
  step1 : Option Step1Data
  step2 : Option Step2Data
  step3 : Option Step3Data
  currentStep : Int
  isComplete : Bool
  lastGeneratedHash : Option String
deriving DecidableEq

/-- JSON string literal; the wizard state never stores characters needing
escapes, so quoting is plain wrapping. -/
def quoteJson (s : String) : String := "\"" ++ s ++ "\""

/-- JSON rendering of a rational; integral values render as JS integers,
non-integral ones in a fixed `num/den` form standing in for JS decimal
notation (the exact digits never matter below, only determinism). -/
def ratJson (q : Rat) : String :=
  if q.den = 1 then intToDecimal q.num
  else intToDecimal q.num ++ "/" ++ intToDecimal (q.den : Int)

def namedJson (o : NamedOption) : String :=
  "\x7b\"id\":" ++ quoteJson o.id ++ ",\"name\":" ++ quoteJson o.name ++ "\x7d"

def step1Json (d : Step1Data) : String :=
  "\x7b\"systemType\":" ++ namedJson d.systemType ++
  ",\"deploymentType\":" ++ namedJson d.deploymentType ++
  ",\"selectedNodes\":" ++ intToDecimal d.selectedNodes ++
  ",\"nodesPerRack\":" ++ intToDecimal d.nodesPerRack ++
  ",\"totalRacks\":" ++ intToDecimal d.totalRacks ++ "\x7d"

def step2Json (d : Step2Data) : String :=
  "\x7b\"powerConfiguration\":" ++ namedJson d.powerConfiguration ++
  ",\"region\":" ++ namedJson d.region ++
  ",\"calculatedEfficiency\":" ++ ratJson d.calculatedEfficiency ++
  ",\"estimatedPowerConsumption\":" ++ ratJson d.estimatedPowerConsumption ++ "\x7d"

def step3Json (d : Step3Data) : String :=
  "\x7b\"storageProtocol\":" ++ namedJson d.storageProtocol ++
  ",\"storageVendor\":" ++ namedJson d.storageVendor ++
  ",\"supportOption\":" ++ namedJson d.supportOption ++ "\x7d"

/-- The members `JSON.stringify` emits for `{step1, step2, step3}`:
a property whose value is `undefined` is omitted. -/
def stepFields (c : ConfigurationData) : List String :=
  (match c.step1 with | some d => ["\"step1\":" ++ step1Json d] | none => []) ++
  (match c.step2 with | some d => ["\"step2\":" ++ step2Json d] | none => []) ++
  (match c.step3 with | some d => ["\"step3\":" ++ step3Json d] | none => [])

/-- `JSON.stringify({step1: config.step1, step2: config.step2, step3: config.step3})`
in `calculateConfigHash`. -/
def configString (c : ConfigurationData) : String :=
  "\x7b" ++ String.intercalate "," (stepFields c) ++ "\x7d"

/-- `calculateConfigHash` of configuration-state.service.ts. -/
def calculateConfigHash (c : ConfigurationData) : String :=
  intToDecimal (hashString (configString c))

/-- JS falsiness of `string | undefined`: `undefined` and `""` are falsy. -/
def strFalsy : Option String → Bool
  | none => true
  | some s => s = ""

/-- `hasConfigurationChanged` of configuration-state.service.ts. -/
def hasConfigurationChanged (c : ConfigurationData) : Bool :=
  if strFalsy c.lastGeneratedHash then true
  else match c.lastGeneratedHash with
    | none => true
    | some h => h ≠ calculateConfigHash c

/-- The full JSON snapshot `JSON.stringify(config)` written by
`updateConfiguration` to the durable client store; key order fixed
canonically (JS insertion order varies with operation history, which never
matters below). -/
def configJson (c : ConfigurationData) : String :=
  "\x7b" ++ String.intercalate ","
    (["\"currentStep\":" ++ intToDecimal c.currentStep,
      "\"isComplete\":" ++ (if c.isComplete then "true" else "false")] ++
     (match c.step1 with | some d => ["\"step1\":" ++ step1Json d] | none => []) ++
     (match c.step2 with | some d => ["\"step2\":" ++ step2Json d] | none => []) ++
     (match c.step3 with | some d => ["\"step3\":" ++ step3Json d] | none => []) ++
     (match c.lastGeneratedHash with
      | some h => ["\"lastGeneratedHash\":" ++ quoteJson h] | none => []))
  ++ "\x7d"

/-- The observable service together with the durable client store:
`configurationSubject.value` and `localStorage['hpc-configuration']`. -/
structure ServiceState where
  config : ConfigurationData
  stored : Option String
deriving DecidableEq

/-- `updateConfiguration`: pushes the new value and writes the snapshot to
the durable store. -/
def updateConfiguration (s : ServiceState) (c : ConfigurationData) : ServiceState :=
  { config := c, stored := some (configJson c) }

/-- `updateStep1` of configuration-state.service.ts. -/
def updateStep1 (s : ServiceState) (d : Step1Data) : ServiceState :=
  updateConfiguration s
    { s.config with
        step1 := some d
        currentStep := max s.config.currentStep 2
        isComplete := false
        lastGeneratedHash := none }

/-- `updateStep2` of configuration-state.service.ts. -/
def updateStep2 (s : ServiceState) (d : Step2Data) : ServiceState :=
  updateConfiguration s
    { s.config with
        step2 := some d
        currentStep := max s.config.currentStep 3
        isComplete := false
        lastGeneratedHash := none }

/-- `updateStep3` of configuration-state.service.ts. -/
def updateStep3 (s : ServiceState) (d : Step3Data) : ServiceState :=
  updateConfiguration s
    { s.config with
        step3 := some d
        currentStep := max s.config.currentStep 4
        isComplete := false
        lastGeneratedHash := none }

/-- `completeConfiguration` of configuration-state.service.ts. -/
def completeConfiguration (s : ServiceState) : ServiceState :=
  updateConfiguration s { s.config with isComplete := true }

/-- `navigateToStep`: guarded by `step <= currentStep`; on success it calls
`configurationSubject.next` directly, NOT `updateConfiguration`, so the
durable store is untouched. -/
def navigateToStep (s : ServiceState) (step : Int) : ServiceState :=
  if step ≤ s.config.currentStep then
    { config := { s.config with currentStep := step }, stored := s.stored }
  else s

/-- `isStepAccessible` of configuration-state.service.ts. -/
def isStepAccessible (s : ServiceState) (step : Int) : Bool :=
  step ≤ s.config.currentStep

/-- `resetConfiguration` of configuration-state.service.ts. -/
def resetConfiguration (s : ServiceState) : ServiceState :=
  updateConfiguration s
    { step1 := none, step2 := none, step3 := none
      currentStep := 1, isComplete := false, lastGeneratedHash := none }

/-- `markAsGenerated` of configuration-state.service.ts. -/
def markAsGenerated (s : ServiceState) : ServiceState :=
  updateConfiguration s
    { s.config with lastGeneratedHash := some (calculateConfigHash s.config) }

/-- The operations a wizard session may issue against the service. -/
inductive Op where
  | upd1 (d : Step1Data)
  | upd2 (d : Step2Data)
  | upd3 (d : Step3Data)
  | navigate (step : Int)
  | complete
  | markGenerated
  | reset
deriving DecidableEq

def applyOp (s : ServiceState) : Op → ServiceState
  | .upd1 d => updateStep1 s d
  | .upd2 d => updateStep2 s d
  | .upd3 d => updateStep3 s d
  | .navigate step => navigateToStep s step
  | .complete => completeConfiguration s
  | .markGenerated => markAsGenerated s
  | .reset => resetConfiguration s

def run (s : ServiceState) (ops : List Op) : ServiceState :=
  ops.foldl applyOp s

/-- `system` block of `FinalConfiguration`. -/
structure SystemSection where
  type : String
  deployment : String
  nodes : Int
  nodesPerRack : Int
  totalRacks : Int
deriving DecidableEq

/-- `power` block of `FinalConfiguration`. -/
structure PowerSection where
  configuration : String
  region : String
  efficiency : Rat
  estimatedConsumption : Rat
deriving DecidableEq

/-- `storage` block of `FinalConfiguration`. -/
structure StorageSection where
  protocol : String
  vendor : String
  support : String
deriving DecidableEq

/-- `FinalConfiguration` as built by `getFinalConfiguration` (the optional
`pricing` block is attached later by the review component, never here). -/
structure FinalConfiguration where
  system : SystemSection
  power : PowerSection
  storage : StorageSection
  timestamp : String
  version : String
deriving DecidableEq

/-- JS `maybeString || ''`. -/
def jsOrS : Option String → String
  | none => ""
  | some s => if s = "" then "" else s

/-- JS `maybeNumber || 0` on integral values. -/
def jsOrI : Option Int → Int
  | none => 0
  | some n => if n = 0 then 0 else n

/-- JS `maybeNumber || 0` on fractional values. -/
def jsOrQ : Option Rat → Rat
  | none => 0
  | some q => if q = 0 then 0 else q

/-- `getFinalConfiguration` of configuration-state.service.ts; `now` is the
value of `new Date().toISOString()` at the call. -/
def getFinalConfiguration (c : ConfigurationData) (now : String) : FinalConfiguration :=
  { system :=
      { type := jsOrS (c.step1.map fun d => d.systemType.name)
        deployment := jsOrS (c.step1.map fun d => d.deploymentType.name)
        nodes := jsOrI (c.step1.map fun d => d.selectedNodes)
        nodesPerRack := jsOrI (c.step1.map fun d => d.nodesPerRack)
        totalRacks := jsOrI (c.step1.map fun d => d.totalRacks) }
    power :=
      { configuration := jsOrS (c.step2.map fun d => d.powerConfiguration.name)
        region := jsOrS (c.step2.map fun d => d.region.name)
        efficiency := jsOrQ (c.step2.map fun d => d.calculatedEfficiency)
        estimatedConsumption := jsOrQ (c.step2.map fun d => d.estimatedPowerConsumption) }
    storage :=
      { protocol := jsOrS (c.step3.map fun d => d.storageProtocol.name)
        vendor := jsOrS (c.step3.map fun d => d.storageVendor.name)
        support := jsOrS (c.step3.map fun d => d.supportOption.name) }
    timestamp := now
    version := "1.0" }

/-- JS truthiness of `number | null` (no NaN arises in the model). -/
def truthyNum : Option Int → Bool
  | none => false
  | some n => n ≠ 0

/-- `calculateTotalRacks` of step1-system-type.component.ts:
`if (this.selectedNodes && this.selectedNodesPerRack) return Math.ceil(n / r); return 0`. -/
def calculateTotalRacks (nodes nodesPerRack : Option Int) : Int :=
  if truthyNum nodes && truthyNum nodesPerRack then
    ⌈(nodes.getD 0 : Rat) / (nodesPerRack.getD 0 : Rat)⌉
  else 0

/-- The two statically-typed keys of `PowerCalculation.baseConsumption` in
step2-power-config.component.ts (`minicluster` / `supercluster`). -/
inductive DeploymentKey where
  | minicluster
  | supercluster
deriving DecidableEq

/-- `PowerCalculation` of step2-power-config.component.ts; the string-keyed
JS records become association lists. -/
structure PowerCalculation where
  baseMinicluster : List (String × Rat)
  baseSupercluster : List (String × Rat)
  efficiencyMultipliers : List (String × Rat)

/-- `this.config.powerCalculation.baseConsumption[deploymentType]`. -/
def baseConsumptionFor (pc : PowerCalculation) : DeploymentKey → List (String × Rat)
  | .minicluster => pc.baseMinicluster
  | .supercluster => pc.baseSupercluster

/-- JS `maybeNumber || d`: the left operand wins iff present and truthy. -/
def jsOrDefault (x : Option Rat) (d : Rat) : Rat :=
  match x with
  | none => d
  | some v => if v = 0 then d else v

/-- JS `Math.round` (half-up toward positive infinity), exact arithmetic. -/
def jsRound (q : Rat) : Int := ⌊q + 1/2⌋

/-- `calculatePowerConsumption` of step2-power-config.component.ts:
`basePower = baseConsumption[nodeCount] || 1000`,
`efficiencyMultiplier = efficiencyMultipliers[id] || 1.0`,
`Math.round(basePower * efficiencyMultiplier * regionalMultiplier * 10) / 10`. -/
def calculatePowerConsumption (pc : PowerCalculation) (deploymentType : DeploymentKey)
    (nodeCount powerConfigId : String) (regionalMultiplier : Rat) : Rat :=
  let basePower := jsOrDefault ((baseConsumptionFor pc deploymentType).lookup nodeCount) 1000
  let efficiencyMultiplier := jsOrDefault (pc.efficiencyMultipliers.lookup powerConfigId) 1
  (jsRound (basePower * efficiencyMultiplier * regionalMultiplier * 10) : Rat) / 10

/-! Concrete fixtures, taken from the README walkthrough
(DataCore X300, MiniCluster, 4 nodes, DC power in the United States,
WekaIO over high-speed interconnect with 5 years of support). -/

def sampleStep1 : Step1Data :=
  { systemType := ⟨"datacore_x300", "DataCore X300"⟩
    deploymentType := ⟨"minicluster", "MiniCluster"⟩
    selectedNodes := 4, nodesPerRack := 4, totalRacks := 1 }

def sampleStep2 : Step2Data :=
  { powerConfiguration := ⟨"full_dc", "Full DC Power"⟩
    region := ⟨"us", "United States"⟩
    calculatedEfficiency := 9/10, estimatedPowerConsumption := 990 }

def sampleStep3 : Step3Data :=
  { storageProtocol := ⟨"highspeed", "High-Speed Interconnect"⟩
    storageVendor := ⟨"wekaio", "WekaIO"⟩
    supportOption := ⟨"5y", "5 Years"⟩ }

/-- The service before any persisted snapshot exists: the `BehaviorSubject`
initial value with an empty durable store. -/
def initialState : ServiceState :=
  ⟨⟨none, none, none, 1, false, none⟩, none⟩

/-- Two configurations with identical step payloads and stored hash that
differ in `currentStep` and `isComplete`. -/
def cfgNavA : ConfigurationData := ⟨some sampleStep1, none, none, 1, false, none⟩

def cfgNavB : ConfigurationData := ⟨some sampleStep1, none, none, 4, true, none⟩

/-! Supporting lemmas. -/

theorem toInt32_emod (n : Int) : toInt32 n % 4294967296 = n % 4294967296 := by
  unfold toInt32
  split <;> omega

theorem toInt32_congr {a b : Int} (h : a % 4294967296 = b % 4294967296) :
    toInt32 a = toInt32 b := by
  unfold toInt32
  rw [h]

theorem natDecAux_ne_nil (fuel n : Nat) : natDecAux (fuel + 1) n ≠ [] := by
  simp only [natDecAux]
  split <;> simp

theorem intToDecimal_ne_empty (i : Int) : intToDecimal i ≠ "" := by
  unfold intToDecimal
  split <;> intro hEq
  · have h := congrArg String.data hEq
    simp at h
  · have h := congrArg String.data hEq
    simp only [String.data] at h
    exact natDecAux_ne_nil _ _ (by simpa using h)

theorem configString_ext {c₁ c₂ : ConfigurationData} (h1 : c₁.step1 = c₂.step1)
    (h2 : c₁.step2 = c₂.step2) (h3 : c₁.step3 = c₂.step3) :
    configString c₁ = configString c₂ := by
  unfold configString stepFields
  rw [h1, h2, h3]

theorem calculateConfigHash_ext {c₁ c₂ : ConfigurationData} (h1 : c₁.step1 = c₂.step1)
    (h2 : c₁.step2 = c₂.step2) (h3 : c₁.step3 = c₂.step3) :
    calculateConfigHash c₁ = calculateConfigHash c₂ := by
  unfold calculateConfigHash
  rw [configString_ext h1 h2 h3]

theorem hasChanged_ext {c₁ c₂ : ConfigurationData} (h1 : c₁.step1 = c₂.step1)
    (h2 : c₁.step2 = c₂.step2) (h3 : c₁.step3 = c₂.step3)
    (hh : c₁.lastGeneratedHash = c₂.lastGeneratedHash) :
    hasConfigurationChanged c₁ = hasConfigurationChanged c₂ := by
  unfold hasConfigurationChanged
  rw [hh, calculateConfigHash_ext h1 h2 h3]

/-! Claim theorems. -/

/-- C1: for every wizard state and payloads, `updateStepN` replaces the
step-n payload, sets `currentStep` to `max(currentStep, n+1)`, sets
`isComplete` to false and clears `lastGeneratedHash`; consequently
`hasConfigurationChanged()` invoked immediately afterwards returns true. -/
theorem updateStep_spec (s : ServiceState) (d₁ : Step1Data) (d₂ : Step2Data)
    (d₃ : Step3Data) :
    ((updateStep1 s d₁).config.step1 = some d₁ ∧
      (updateStep1 s d₁).config.currentStep = max s.config.currentStep 2 ∧
      (updateStep1 s d₁).config.isComplete = false ∧
      (updateStep1 s d₁).config.lastGeneratedHash = none ∧
      hasConfigurationChanged (updateStep1 s d₁).config = true) ∧
    ((updateStep2 s d₂).config.step2 = some d₂ ∧
      (updateStep2 s d₂).config.currentStep = max s.config.currentStep 3 ∧
      (updateStep2 s d₂).config.isComplete = false ∧
      (updateStep2 s d₂).config.lastGeneratedHash = none ∧
      hasConfigurationChanged (updateStep2 s d₂).config = true) ∧
    ((updateStep3 s d₃).config.step3 = some d₃ ∧
      (updateStep3 s d₃).config.currentStep = max s.config.currentStep 4 ∧
      (updateStep3 s d₃).config.isComplete = false ∧
      (updateStep3 s d₃).config.lastGeneratedHash = none ∧
      hasConfigurationChanged (updateStep3 s d₃).config = true) :=
  ⟨⟨rfl, rfl, rfl, rfl, rfl⟩, ⟨rfl, rfl, rfl, rfl, rfl⟩, ⟨rfl, rfl, rfl, rfl, rfl⟩⟩

/-- C2: `markAsGenerated()` stores the content hash of the current step
tuple, so `hasConfigurationChanged()` called immediately afterwards (with
no step mutation in between) returns false. -/
theorem markAsGenerated_hasChanged (s : ServiceState) :
    hasConfigurationChanged (markAsGenerated s).config = false := by
  have hne : calculateConfigHash s.config ≠ "" := intToDecimal_ne_empty _
  have hfix :
      calculateConfigHash (markAsGenerated s).config = calculateConfigHash s.config :=
    calculateConfigHash_ext rfl rfl rfl
  have hlast : (markAsGenerated s).config.lastGeneratedHash
      = some (calculateConfigHash s.config) := rfl
  unfold hasConfigurationChanged
  rw [hlast, hfix]
  simp [strFalsy, hne]

/-- C3: the hash loop body `((h<<5)-h)+c` followed by 32-bit truncation
equals `h*31 + code(c)` reduced to a sign-preserving 32-bit integer, and
states with equal serialized step tuples receive equal hashes. -/
theorem calculateConfigHash_spec :
    (∀ (h : Int) (c : Nat), hashStep h c = toInt32 (31 * h + c)) ∧
    (∀ c₁ c₂ : ConfigurationData, configString c₁ = configString c₂ →
      calculateConfigHash c₁ = calculateConfigHash c₂) := by
  constructor
  · intro h c
    unfold hashStep jsShl5
    apply toInt32_congr
    have h1 := toInt32_emod (toInt32 h * 32)
    have h2 := toInt32_emod h
    omega
  · intro c₁ c₂ h
    unfold calculateConfigHash
    rw [h]

/-- Witness for C3 at concrete inputs. -/
theorem calculateConfigHash_spec_witness :
    hashStep 7 65 = toInt32 (31 * 7 + 65) ∧
    calculateConfigHash cfgNavA = calculateConfigHash cfgNavB :=
  ⟨calculateConfigHash_spec.1 7 65,
    calculateConfigHash_spec.2 cfgNavA cfgNavB rfl⟩

/-- C6: navigating to a step beyond `currentStep` is a silent no-op that
leaves the entire service state (configuration and store) unchanged. -/
theorem navigateToStep_noop (s : ServiceState) (step : Int)
    (h : s.config.currentStep < step) :
    navigateToStep s step = s := by
  unfold navigateToStep
  rw [if_neg (by omega)]

/-- Witness for C6 at a concrete state. -/
theorem navigateToStep_noop_witness :
    initialState.config.currentStep < 3 ∧ navigateToStep initialState 3 = initialState :=
  ⟨by decide, navigateToStep_noop initialState 3 (by decide)⟩

/-- C10: change detection reads only the three step payloads and the stored
hash: states agreeing on those fields give the same
`hasConfigurationChanged()` result however `currentStep` and `isComplete`
differ, so `navigateToStep` and `completeConfiguration` never affect it. -/
theorem hasChanged_hash_scope (c₁ c₂ : ConfigurationData)
    (h1 : c₁.step1 = c₂.step1) (h2 : c₁.step2 = c₂.step2) (h3 : c₁.step3 = c₂.step3)
    (hh : c₁.lastGeneratedHash = c₂.lastGeneratedHash) :
    hasConfigurationChanged c₁ = hasConfigurationChanged c₂ ∧
    (∀ (s : ServiceState) (n : Int),
      hasConfigurationChanged (navigateToStep s n).config =
        hasConfigurationChanged s.config) ∧
    (∀ s : ServiceState,
      hasConfigurationChanged (completeConfiguration s).config =
        hasConfigurationChanged s.config) := by
  refine ⟨hasChanged_ext h1 h2 h3 hh, ?_, ?_⟩
  · intro s n
    unfold navigateToStep
    split
    · exact hasChanged_ext rfl rfl rfl rfl
    · rfl
  · intro s
    exact hasChanged_ext rfl rfl rfl rfl

/-- Witness for C10: two states differing only in `currentStep` and
`isComplete`. -/
theorem hasChanged_hash_scope_witness :
    hasConfigurationChanged cfgNavA = hasConfigurationChanged cfgNavB ∧
    (∀ (s : ServiceState) (n : Int),
      hasConfigurationChanged (navigateToStep s n).config =
        hasConfigurationChanged s.config) ∧
    (∀ s : ServiceState,
      hasConfigurationChanged (completeConfiguration s).config =
        hasConfigurationChanged s.config) :=
  hasChanged_hash_scope cfgNavA cfgNavB rfl rfl rfl rfl

/-- C4 counterexample: a sequence without reset (updateStep1 then
navigateToStep 1, exactly what the Previous buttons issue) strictly lowers
`currentStep`, refuting "currentStep never decreases except on reset". -/
theorem navigate_lowers_currentStep :
    (run initialState [Op.upd1 sampleStep1, Op.navigate 1]).config.currentStep <
      (run initialState [Op.upd1 sampleStep1]).config.currentStep := by
  decide

/-- Those operations that the amended C4 quantifies over: everything except
`navigateToStep` and `resetConfiguration`. -/
def Op.keepsStepMonotone : Op → Bool
  | .navigate _ => false
  | .reset => false
  | _ => true

/-- C4 amended: under every sequence of operations other than reset and
navigateToStep (updateStep1/2/3, markAsGenerated, completeConfiguration),
`currentStep` never decreases; `navigateToStep` may lower it to any
accessible step, as may reset. -/
theorem currentStep_monotone (s : ServiceState) (ops : List Op)
    (h : ∀ op ∈ ops, op.keepsStepMonotone = true) :
    s.config.currentStep ≤ (run s ops).config.currentStep := by
  induction ops generalizing s with
  | nil => exact le_refl _
  | cons op rest ih =>
    have hop : op.keepsStepMonotone = true := h op (by simp)
    have hrest : ∀ o ∈ rest, o.keepsStepMonotone = true :=
      fun o ho => h o (by simp [ho])
    have hstep : s.config.currentStep ≤ (applyOp s op).config.currentStep := by
      cases op with
      | upd1 d => exact le_max_left _ _
      | upd2 d => exact le_max_left _ _
      | upd3 d => exact le_max_left _ _
      | navigate n => simp [Op.keepsStepMonotone] at hop
      | complete => exact le_refl _
      | markGenerated => exact le_refl _
      | reset => simp [Op.keepsStepMonotone] at hop
    exact le_trans hstep (ih (applyOp s op) hrest)

/-- Witness for the amended C4 on a concrete sequence. -/
theorem currentStep_monotone_witness :
    (∀ op ∈ [Op.upd1 sampleStep1, Op.complete], op.keepsStepMonotone = true) ∧
    initialState.config.currentStep ≤
      (run initialState [Op.upd1 sampleStep1, Op.complete]).config.currentStep :=
  ⟨by decide,
    currentStep_monotone initialState [Op.upd1 sampleStep1, Op.complete] (by decide)⟩

/-- C5 counterexample: after updateStep1 then navigateToStep(1) — the
Previous-button flow — the durable snapshot still holds the pre-navigation
state, because navigateToStep pushes the new value without writing the
store; the claim "after any mutation the stored snapshot equals the
serialization of the current state" fails at this input. -/
theorem navigate_skips_persist :
    (navigateToStep (updateStep1 initialState sampleStep1) 1).stored ≠
      some (configJson
        (navigateToStep (updateStep1 initialState sampleStep1) 1).config) := by
  decide

/-- C5 amended: updateStep1/2/3, completeConfiguration, markAsGenerated and
resetConfiguration each persist the snapshot of the state they produce;
navigateToStep alone mutates the in-memory state without touching the
durable store. -/
theorem mutations_persist (s : ServiceState) (d₁ : Step1Data) (d₂ : Step2Data)
    (d₃ : Step3Data) (n : Int) :
    (updateStep1 s d₁).stored = some (configJson (updateStep1 s d₁).config) ∧
    (updateStep2 s d₂).stored = some (configJson (updateStep2 s d₂).config) ∧
    (updateStep3 s d₃).stored = some (configJson (updateStep3 s d₃).config) ∧
    (completeConfiguration s).stored =
      some (configJson (completeConfiguration s).config) ∧
    (markAsGenerated s).stored = some (configJson (markAsGenerated s).config) ∧
    (resetConfiguration s).stored =
      some (configJson (resetConfiguration s).config) ∧
    (navigateToStep s n).stored = s.stored := by
  refine ⟨rfl, rfl, rfl, rfl, rfl, rfl, ?_⟩
  unfold navigateToStep
  split <;> rfl

theorem ceil_intCast_div (n r : Int) (hn : 0 < n) (hr : 0 < r) :
    ⌈(n : Rat) / (r : Rat)⌉ = (n + r - 1) / r := by
  have hrQ : (0 : Rat) < (r : Rat) := by exact_mod_cast hr
  have hq := Int.ediv_add_emod (n + r - 1) r
  have hs0 := Int.emod_nonneg (n + r - 1) (by omega : r ≠ 0)
  have hs1 := Int.emod_lt_of_pos (n + r - 1) hr
  have k1 : n ≤ (n + r - 1) / r * r := by
    have hc := mul_comm ((n + r - 1) / r) r
    linarith
  have k2 : (n + r - 1) / r * r - r < n := by
    have hc := mul_comm ((n + r - 1) / r) r
    linarith
  apply le_antisymm
  · rw [Int.ceil_le, div_le_iff₀ hrQ]
    exact_mod_cast k1
  · have h2 : (n + r - 1) / r - 1 < ⌈(n : Rat) / (r : Rat)⌉ := by
      rw [Int.lt_ceil, lt_div_iff₀ hrQ]
      have hk : ((n + r - 1) / r : Int) * (r : Rat) - (r : Rat) < (n : Rat) := by
        exact_mod_cast k2
      push_cast
      linarith
    omega

/-- C7: with both inputs truthy, the total-racks computation returns
ceil(nodes / nodesPerRack) — equivalently `(nodes + nodesPerRack - 1) / nodesPerRack`
in integer division — so totalRacks(8,4) = 2 and totalRacks(5,4) = 2; with a
missing or zero input it returns 0. -/
theorem calculateTotalRacks_spec (n r : Int) (hn : 0 < n) (hr : 0 < r)
    (m : Option Int) :
    calculateTotalRacks (some n) (some r) = (n + r - 1) / r ∧
    calculateTotalRacks (some 8) (some 4) = 2 ∧
    calculateTotalRacks (some 5) (some 4) = 2 ∧
    calculateTotalRacks none m = 0 ∧
    calculateTotalRacks m none = 0 ∧
    calculateTotalRacks (some 0) m = 0 ∧
    calculateTotalRacks m (some 0) = 0 := by
  refine ⟨?_, ?_, ?_, ?_, ?_, ?_, ?_⟩
  · have hcond : (truthyNum (some n) && truthyNum (some r)) = true := by
      simp [truthyNum, hn.ne', hr.ne']
    unfold calculateTotalRacks
    rw [if_pos hcond]
    simp only [Option.getD_some]
    exact ceil_intCast_div n r hn hr
  · unfold calculateTotalRacks
    rw [if_pos (show (truthyNum (some 8) && truthyNum (some 4)) = true by decide)]
    simp only [Option.getD_some]
    rw [ceil_intCast_div 8 4 (by norm_num) (by norm_num)]
    decide
  · unfold calculateTotalRacks
    rw [if_pos (show (truthyNum (some 5) && truthyNum (some 4)) = true by decide)]
    simp only [Option.getD_some]
    rw [ceil_intCast_div 5 4 (by norm_num) (by norm_num)]
    decide
  · simp [calculateTotalRacks, truthyNum]
  · simp [calculateTotalRacks, truthyNum]
  · simp [calculateTotalRacks, truthyNum]
  · simp [calculateTotalRacks, truthyNum]

/-- Witness for C7 at nodes = 5, nodesPerRack = 4. -/
theorem calculateTotalRacks_spec_witness :
    (0 : Int) < 5 ∧ (0 : Int) < 4 ∧
    (calculateTotalRacks (some 5) (some 4) = (5 + 4 - 1) / 4 ∧
      calculateTotalRacks (some 8) (some 4) = 2 ∧
      calculateTotalRacks (some 5) (some 4) = 2 ∧
      calculateTotalRacks none none = 0 ∧
      calculateTotalRacks none none = 0 ∧
      calculateTotalRacks (some 0) none = 0 ∧
      calculateTotalRacks none (some 0) = 0) :=
  ⟨by norm_num, by norm_num,
    calculateTotalRacks_spec 5 4 (by norm_num) (by norm_num) none⟩

/-- A sample power-calculation table for the C8 witness: node count "8" is
missing from the minicluster base-consumption record and the DC
configuration has efficiency multiplier 0.9. -/
def samplePowerCalc : PowerCalculation :=
  { baseMinicluster := [("4", 1200)]
    baseSupercluster := []
    efficiencyMultipliers := [("full_dc", 9/10)] }

/-- C8: the estimated-power computation looks up
`baseTable[deploymentTypeId][nodeCountKey]`, falls back to the fixed
default base 1000 when the entry is missing, and returns
base × efficiencyMultiplier × regionalMultiplier rounded to 1 decimal;
with default base 1000, efficiency 0.9 and regional multiplier 1.1 the
result is 990.0. -/
theorem calculatePowerConsumption_spec
    (pc : PowerCalculation) (dt : DeploymentKey) (nc id : String)
    (hmiss : (baseConsumptionFor pc dt).lookup nc = none)
    (heff : pc.efficiencyMultipliers.lookup id = some (9/10)) :
    (∀ (pcK : PowerCalculation) (dtK : DeploymentKey) (ncK idK : String)
        (reg base eff : Rat),
        (baseConsumptionFor pcK dtK).lookup ncK = some base → base ≠ 0 →
        pcK.efficiencyMultipliers.lookup idK = some eff → eff ≠ 0 →
        calculatePowerConsumption pcK dtK ncK idK reg =
          (⌊base * eff * reg * 10 + 1/2⌋ : Rat) / 10) ∧
    (∀ (pcM : PowerCalculation) (dtM : DeploymentKey) (ncM idM : String)
        (reg : Rat),
        (baseConsumptionFor pcM dtM).lookup ncM = none →
        pcM.efficiencyMultipliers.lookup idM = none →
        calculatePowerConsumption pcM dtM ncM idM reg =
          (⌊1000 * reg * 10 + 1/2⌋ : Rat) / 10) ∧
    calculatePowerConsumption pc dt nc id (11/10) = 990 := by
  refine ⟨?_, ?_, ?_⟩
  · intro pcK dtK ncK idK reg base eff hb hb0 he he0
    unfold calculatePowerConsumption
    rw [hb, he]
    simp [jsOrDefault, hb0, he0, jsRound]
  · intro pcM dtM ncM idM reg hbM heM
    unfold calculatePowerConsumption
    rw [hbM, heM]
    simp [jsOrDefault, jsRound]
  · unfold calculatePowerConsumption
    rw [hmiss, heff]
    have h9 : (9/10 : Rat) ≠ 0 := by norm_num
    simp only [jsOrDefault, jsRound, if_neg h9]
    norm_num

/-- Witness for C8 on the sample table. -/
theorem calculatePowerConsumption_spec_witness :
    (baseConsumptionFor samplePowerCalc DeploymentKey.minicluster).lookup "8" = none ∧
    samplePowerCalc.efficiencyMultipliers.lookup "full_dc" = some (9/10) ∧
    calculatePowerConsumption samplePowerCalc DeploymentKey.minicluster
      "8" "full_dc" (11/10) = 990 :=
  ⟨rfl, rfl,
    (calculatePowerConsumption_spec samplePowerCalc DeploymentKey.minicluster
      "8" "full_dc" rfl rfl).2.2⟩

theorem jsOrS_getD (o : Option String) : jsOrS o = o.getD "" := by
  cases o with
  | none => rfl
  | some s => by_cases h : s = "" <;> simp [jsOrS, h]

theorem jsOrI_getD (o : Option Int) : jsOrI o = o.getD 0 := by
  cases o with
  | none => rfl
  | some n => by_cases h : n = 0 <;> simp [jsOrI, h]

theorem jsOrQ_getD (o : Option Rat) : jsOrQ o = o.getD 0 := by
  cases o with
  | none => rfl
  | some q => by_cases h : q = 0 <;> simp [jsOrQ, h]

/-- C9: for every wizard state, including partially or wholly missing
steps, `getFinalConfiguration()` totally produces a flat record of the
selected option names, the supplied ISO timestamp and the fixed version
"1.0", projecting a missing name to the empty string and a missing number
to 0. -/
theorem getFinalConfiguration_spec (c : ConfigurationData) (now : String) :
    (getFinalConfiguration c now).version = "1.0" ∧
    (getFinalConfiguration c now).timestamp = now ∧
    (getFinalConfiguration c now).system =
      { type := (c.step1.map fun d => d.systemType.name).getD ""
        deployment := (c.step1.map fun d => d.deploymentType.name).getD ""
        nodes := (c.step1.map fun d => d.selectedNodes).getD 0
        nodesPerRack := (c.step1.map fun d => d.nodesPerRack).getD 0
        totalRacks := (c.step1.map fun d => d.totalRacks).getD 0 } ∧
    (getFinalConfiguration c now).power =
      { configuration := (c.step2.map fun d => d.powerConfiguration.name).getD ""
        region := (c.step2.map fun d => d.region.name).getD ""
        efficiency := (c.step2.map fun d => d.calculatedEfficiency).getD 0
        estimatedConsumption :=
          (c.step2.map fun d => d.estimatedPowerConsumption).getD 0 } ∧
    (getFinalConfiguration c now).storage =
      { protocol := (c.step3.map fun d => d.storageProtocol.name).getD ""
        vendor := (c.step3.map fun d => d.storageVendor.name).getD ""
        support := (c.step3.map fun d => d.supportOption.name).getD "" } := by
  refine ⟨rfl, rfl, ?_, ?_, ?_⟩ <;>
    simp [getFinalConfiguration, jsOrS_getD, jsOrI_getD, jsOrQ_getD]

end HPC
